import Mathlib

/-!
Verification of the update/installation core of `python_discord_launcher`.

The Python sources `discord_update_lib.py` and `discord_launcher_lib.py` are
shallowly embedded below: pure helpers become Lean functions, raising code
returns `Except PyErr`, the filesystem and the network are explicit inputs.
Machine integers do not overflow in the source (Python ints), so versions are
`Nat` triples.
-/

set_option linter.unusedVariables false

/-- A parsed JSON object as used by the sources: `build_info.json` holds only
string fields (`version`, `releaseChannel`), so a dict is an association list.
A lookup `d[k]` that misses raises `KeyError` in Python; here the lookup is an
`Option` and callers turn `none` into `PyErr.KeyError`. -/
abbrev PyDict := List (String × String)

/-- `d[k]` lookup: first binding wins, as in a JSON object with unique keys. -/
def dictGet (d : PyDict) (k : String) : Option String :=
  match d with
  | [] => none
  | (k', v) :: rest => if k' = k then some v else dictGet rest k

/-- The exceptions raised by the two library files.  Human-readable notes
attached with `add_note` are modelled only where a claim depends on them
(`NoUpdateAvailableError`, `ValueError`); elsewhere they are elided. -/
inductive PyErr where
  | ParsingVersionError
  | BuildInfoNotFoundInTarError
  | BuildInfoNotFoundError
  | ReleaseChannelMismatchError
  | InstalledVersionSameError
  | InstalledVersionNewerError
  | NoUpdateAvailableError (note : String)
  | ValueError (note : String)
  | TypeError (msg : String)
  | KeyError (key : String)
  | IsADirectoryError
  | DiscordNotRunningError
  deriving DecidableEq

/-- A version triple `(major, minor, patch)` of non-negative integers. -/
abbrev Version := Nat × Nat × Nat

/-- The character for a decimal digit value `d < 10`. -/
def digitChar : Nat → Char
  | 0 => '0' | 1 => '1' | 2 => '2' | 3 => '3' | 4 => '4'
  | 5 => '5' | 6 => '6' | 7 => '7' | 8 => '8' | 9 => '9'
  | _ => '*'

/-- Numeric value of a decimal digit character. -/
def digitVal (c : Char) : Nat := c.toNat - '0'.toNat

/-- Worker for `pyStrChars`, structurally recursive on a fuel argument so
that concrete values reduce by `rfl`; `fuel > n` always suffices because the
recursion divides `n` by 10. -/
def pyStrCharsGo : Nat → Nat → List Char
  | 0, _ => []
  | fuel + 1, n =>
    if n < 10 then [digitChar n]
    else pyStrCharsGo fuel (n / 10) ++ [digitChar (n % 10)]

/-- Decimal digits of `n`, most significant first: Python's `str(n)` for a
non-negative `int`. -/
def pyStrChars (n : Nat) : List Char := pyStrCharsGo (n + 1) n

/-- Python `str(n)` for a non-negative integer `n`. -/
def pyStr (n : Nat) : String := ⟨pyStrChars n⟩

/-- Python `int(s)` on a string of decimal digits. -/
def pyIntChars (cs : List Char) : Nat :=
  cs.foldl (fun n c => 10 * n + digitVal c) 0

namespace DiscordUpdateLib

/-- `BUILD_INFO_PATH` from `discord_update_lib.py`. -/
def BUILD_INFO_PATH : String := "resources/build_info.json"

/-- `Ord` from `discord_update_lib.py` (the three-way comparison result). -/
inductive Ord where
  | GREATER_THAN
  | EQUAL_TO
  | LESS_THAN
  deriving DecidableEq

/-- The match attempt of `VERSION_REGEX` = `(\d+)\.(\d+)\.(\d+)` against the
start of `s` (Python `re.match`: anchored at the start, trailing text
allowed).  Each `\d+` group is the maximal digit run at its position: a
shorter, backtracked run would still be followed by a digit rather than the
required dot, so maximal runs are the only candidates. -/
def VERSION_REGEX_match (s : String) : Option (List Char × List Char × List Char) :=
  if s.data.takeWhile Char.isDigit = [] then none else
  match s.data.dropWhile Char.isDigit with
  | '.' :: r1 =>
    if r1.takeWhile Char.isDigit = [] then none else
    match r1.dropWhile Char.isDigit with
    | '.' :: r2 =>
      if r2.takeWhile Char.isDigit = [] then none
      else some (s.data.takeWhile Char.isDigit, r1.takeWhile Char.isDigit, r2.takeWhile Char.isDigit)
    | _ => none
  | _ => none

/-- `parse_version` (discord_update_lib.py:73-83): regex-match the string and
convert the three groups with `int(...)`; raise `ParsingVersionError` when the
regex does not match. -/
def parse_version (version : String) : Except PyErr Version :=
  match VERSION_REGEX_match version with
  | none => .error .ParsingVersionError
  | some (g1, g2, g3) => .ok (pyIntChars g1, pyIntChars g2, pyIntChars g3)

/-- `compare_versions` (discord_update_lib.py:85-102). -/
def compare_versions (v1 v2 : Version) : Ord :=
  if v1.1 > v2.1 then .GREATER_THAN
  else if v1.1 < v2.1 then .LESS_THAN
  else if v1.2.1 > v2.2.1 then .GREATER_THAN
  else if v1.2.1 < v2.2.1 then .LESS_THAN
  else if v1.2.2 > v2.2.2 then .GREATER_THAN
  else if v1.2.2 < v2.2.2 then .LESS_THAN
  else .EQUAL_TO

/-- `format_version` (discord_update_lib.py:104-108): `".".join(str(n) ...)`
over the three version numbers. -/
def format_version (version : Version) : String :=
  pyStr version.1 ++ "." ++ pyStr version.2.1 ++ "." ++ pyStr version.2.2

/-- A node of the filesystem tree, as `remove_directory` walks it:
a regular file (with its bytes) or a directory listing named children. -/
inductive FSNode where
  | file (content : String)
  | dir (children : List (String × FSNode))

mutual
/-- The body of the `for item in path.iterdir()` loop of `remove_directory`
(discord_update_lib.py:254-258): each child that is a directory is removed
recursively, every other child is `unlink`ed; the result is what remains of
the directory listing after the loop. -/
def remove_items : List (String × FSNode) → List (String × FSNode)
  | [] => []
  | (nm, c) :: rest =>
    (match c with
     | .dir cs =>
       (match remove_directory (.dir cs) with
        | none => []
        | some c2 => [(nm, c2)])
     | .file _ => []) ++ remove_items rest

/-- `remove_directory` (discord_update_lib.py:247-259) on an existing node:
`if path.is_dir()` guards the whole body, so a non-directory is returned
untouched; for a directory the loop empties it and `path.rmdir()` deletes it
(`none`).  The `some (.dir _)` branch models `rmdir` finding the directory
still non-empty; `remove_items_eq_nil` below shows it is unreachable. -/
def remove_directory : FSNode → Option FSNode
  | .file content => some (.file content)
  | .dir items =>
    match remove_items items with
    | [] => none
    | rest => some (.dir rest)
end

/-- `remove_directory` on a path that may not exist: `path.is_dir()` is false
for a missing path, so the call is a no-op there. -/
def remove_directory_at : Option FSNode → Option FSNode
  | none => none
  | some n => remove_directory n

/-- `path.is_dir()` on a path that may not exist. -/
def is_dir_at : Option FSNode → Bool
  | some (.dir _) => true
  | _ => false

end DiscordUpdateLib

namespace DiscordUpdateLib

/-- A member of the downloaded tar archive.  Only the build-info entry's bytes
are ever read (and immediately `json.loads`-ed), so the content is modelled
already parsed; a JSON decode failure is outside the claims' scope. -/
structure TarMember where
  path : String
  json : PyDict

/-- What the member scan of `install_discord` (discord_update_lib.py:142-152)
produces: the build-info entry found in the tar, if any, and the
prefix-stripped names collected for extraction. -/
structure ScanResult where
  build_info : Option PyDict
  root_members : List String

/-- `root_names` (discord_update_lib.py:143). -/
def root_names : List String := ["Discord/", "DiscordPTB/", "DiscordCanary/"]

/-- Python `s.startswith(p)`. -/
def startswith (s p : String) : Bool := p.data.isPrefixOf s.data

/-- Drop the first `n` characters of a string (models `str.removeprefix` once
the prefix is known to match). -/
def dropStr (s : String) (n : Nat) : String := ⟨s.data.drop n⟩

/-- The inner `for root_name in root_names` loop (lines 147-152) for one tar
member: the equality test against `root_name + BUILD_INFO_PATH` uses the
member's current (possibly already stripped) name, then a matching prefix is
removed and the member is collected for extraction. -/
def scan_roots : List String → String → PyDict → ScanResult → String × ScanResult
  | [], name, _, acc => (name, acc)
  | root :: rest, name, json, acc =>
    let acc1 := if name = root ++ BUILD_INFO_PATH then { acc with build_info := some json } else acc
    if startswith name root then
      let name2 := dropStr name root.length
      scan_roots rest name2 json { acc1 with root_members := acc1.root_members ++ [name2] }
    else
      scan_roots rest name json acc1

/-- The outer `for item in tar_object.getmembers()` loop (lines 146-152). -/
def scan_members : List TarMember → ScanResult → ScanResult
  | [], acc => acc
  | m :: rest, acc => scan_members rest (scan_roots root_names m.path m.json acc).2

/-- The state of `<path>/resources/build_info.json` on disk: absent, present
but a directory, or a regular file holding a parsed JSON object. -/
inductive FileNode where
  | missing
  | directory
  | file (d : PyDict)
  deriving DecidableEq

/-- `get_installed_build_info` (discord_update_lib.py:120-128): raise
`BuildInfoNotFoundError` when the file is absent, `IsADirectoryError` when the
path is a directory, otherwise read and parse it. -/
def get_installed_build_info : FileNode → Except PyErr PyDict
  | .missing => .error .BuildInfoNotFoundError
  | .directory => .error .IsADirectoryError
  | .file d => .ok d

/-- The validation phase of `install_discord` (discord_update_lib.py:154-203),
everything before the destructive step at line 211. -/
def install_checks (tar_build_info : Option PyDict) (installed : FileNode)
    (force strict_channel : Bool) : Except PyErr Unit :=
  -- lines 154-166: check build_info.json from the tar
  let build_info_json : Except PyErr PyDict :=
    match tar_build_info with
    | some bj =>
      -- line 160: the log message evaluates bj["version"] then bj["releaseChannel"]
      match dictGet bj "version" with
      | none => .error (.KeyError "version")
      | some _ =>
        match dictGet bj "releaseChannel" with
        | none => .error (.KeyError "releaseChannel")
        | some _ => .ok bj
    | none =>
      if strict_channel || !force then
        -- BUG in the source (lines 162-164): a BuildInfoNotFoundInTarError is
        -- constructed and annotated here but never raised; execution falls
        -- through with build_info_json still the empty dict.
        .ok []
      else
        -- line 166: warning only, degraded mode
        .ok []
  match build_info_json with
  | .error e => .error e
  | .ok bij =>
    -- lines 168-203: try / except BuildInfoNotFoundError
    match installed with
    | .missing =>
      -- get_installed_build_info raised BuildInfoNotFoundError; caught at line 199
      if strict_channel || !force then .error .BuildInfoNotFoundError
      else .ok ()   -- line 203: warning, remaining checks skipped
    | .directory => .error .IsADirectoryError   -- not caught by the except clause
    | .file inst =>
      -- line 172: the log message evaluates inst["version"] then inst["releaseChannel"]
      match dictGet inst "version" with
      | none => .error (.KeyError "version")
      | some _ =>
        match dictGet inst "releaseChannel" with
        | none => .error (.KeyError "releaseChannel")
        | some instChannel =>
          -- line 175: build_info_json["releaseChannel"] — raises KeyError on
          -- the empty dict left behind when the tar had no build info
          match dictGet bij "releaseChannel" with
          | none => .error (.KeyError "releaseChannel")
          | some tarChannel =>
            if tarChannel ≠ instChannel then
              if strict_channel then .error .ReleaseChannelMismatchError
              else .ok ()   -- line 181: warning only
            else
              -- line 184: compare_versions(parse_version(tar), parse_version(installed))
              match dictGet bij "version" with
              | none => .error (.KeyError "version")
              | some tarVs =>
                match parse_version tarVs with
                | .error e => .error e
                | .ok tarV =>
                  match dictGet inst "version" with
                  | none => .error (.KeyError "version")
                  | some instVs =>
                    match parse_version instVs with
                    | .error e => .error e
                    | .ok instV =>
                      match compare_versions tarV instV with
                      | .LESS_THAN =>
                        if !force then .error .InstalledVersionNewerError else .ok ()
                      | .EQUAL_TO =>
                        if !force then .error .InstalledVersionSameError else .ok ()
                      | .GREATER_THAN => .ok ()

/-- Outcome of `install_discord`: an exception together with whether the
destructive phase (line 211 onward: `remove_directory`, `mkdir`,
`extractall`) had been reached when it was raised, or a completed
installation with the extracted member names. -/
inductive InstallResult where
  | raised (e : PyErr) (destructive_reached : Bool)
  | installed (members : List String)
  deriving DecidableEq

/-- `install_discord` (discord_update_lib.py:130-218).  `installed` is the
state of the destination's build-info file; `io_err` models a filesystem
failure inside the destructive phase (`mkdir` or mid-extraction), which the
source does not recover from. -/
def install_discord (installed : FileNode) (tar : List TarMember)
    (force strict_channel : Bool) (io_err : Option PyErr) : InstallResult :=
  let scan := scan_members tar ⟨none, []⟩
  match install_checks scan.build_info installed force strict_channel with
  | .error e => .raised e false
  | .ok () =>
    -- lines 211-218: remove the existing directory, recreate it, extract
    match io_err with
    | some e => .raised e true
    | none => .installed scan.root_members

/-- Result of a check-for-updates call, recording whether the network was
contacted (`get_latest_discord_version` performs the only network request). -/
structure CheckResult where
  result : Except PyErr (Ord × Version × Version)
  network_called : Bool

/-- `check_for_updates` (discord_update_lib.py:220-233).  `latest` is the
download-location resolver: the version embedded in the redirect URL for a
channel (network collaborator, assumed to resolve). -/
def check_for_updates (installed : FileNode) (latest : String → Version) : CheckResult :=
  match get_installed_build_info installed with
  | .error e => ⟨.error e, false⟩
  | .ok bi =>
    -- line 227: installed_build_info_json["releaseChannel"]
    match dictGet bi "releaseChannel" with
    | none => ⟨.error (.KeyError "releaseChannel"), false⟩
    | some rc =>
      let channel := if rc = "canary" ∨ rc = "ptb" then rc else "stable"
      -- line 230: current := parse_version(installed_build_info_json["version"])
      match dictGet bi "version" with
      | none => ⟨.error (.KeyError "version"), false⟩
      | some vs =>
        match parse_version vs with
        | .error e => ⟨.error e, false⟩
        | .ok current =>
          -- line 231: the network call
          let l := latest channel
          ⟨.ok (compare_versions current l, current, l), true⟩

end DiscordUpdateLib

namespace DiscordLauncherLib

open DiscordUpdateLib

/-- The construction `ReleaseChannelMismatchError((configured, installed))` at
discord_launcher_lib.py:180.  `ReleaseChannelMismatchError.__init__` accepts
no argument besides `self` (discord_update_lib.py:25-27), so passing the
channel tuple makes the constructor call itself raise `TypeError`, and both
channel values are lost. -/
def ReleaseChannelMismatchError_construct (configured installed : String) : PyErr :=
  .TypeError "ReleaseChannelMismatchError.__init__ takes 1 positional argument but 2 were given"

/-- `check_for_updates` (discord_launcher_lib.py:174-182): compare the
configured channel against the installed build info's channel before
delegating to `discord_update_lib.check_for_updates`.  `release_channel` is
`config["release_channel"]`, `installed` the state of the installed
build-info file, `latest` the network resolver. -/
def check_for_updates (release_channel : String) (installed : FileNode)
    (latest : String → Version) : CheckResult :=
  match DiscordUpdateLib.get_installed_build_info installed with
  | .error e => ⟨.error e, false⟩
  | .ok bi =>
    -- line 179: build_info["releaseChannel"]
    match dictGet bi "releaseChannel" with
    | none => ⟨.error (.KeyError "releaseChannel"), false⟩
    | some rc =>
      if release_channel ≠ rc then
        -- line 180: raise ReleaseChannelMismatchError((configured, installed))
        ⟨.error (ReleaseChannelMismatchError_construct release_channel rc), false⟩
      else
        DiscordUpdateLib.check_for_updates installed latest

/-- Outcome of `update_discord`: the returned version or the raised
exception, plus whether the download/extraction step
(`download_and_install_discord`, discord_launcher_lib.py:221) was reached. -/
structure UpdateOutcome where
  result : Except PyErr Version
  download_reached : Bool

/-- `update_discord` (discord_launcher_lib.py:184-223).  `tar` resolves the
downloaded archive for a channel; `io_err` is threaded to the installer's
destructive phase. -/
def update_discord (release_channel : String) (installed : FileNode)
    (latest : String → Version) (tar : String → List TarMember)
    (io_err : Option PyErr) (strict_channel : Bool) : UpdateOutcome :=
  -- lines 190-208: try check_for_updates / except ReleaseChannelMismatchError
  let step1 : Except PyErr (Option (Ord × Version × Version)) :=
    match (check_for_updates release_channel installed latest).result with
    | .ok info =>
      match info.1 with
      | .EQUAL_TO =>
        -- lines 193-196: raise NoUpdateAvailableError, note carries the version
        .error (.NoUpdateAvailableError
          ("Latest available version is " ++ format_version info.2.2 ++ ", which is installed"))
      | .GREATER_THAN =>
        -- lines 197-200: raise ValueError, note carries both versions
        .error (.ValueError
          ("Installed version is " ++ format_version info.2.1
            ++ ", latest available is " ++ format_version info.2.2))
      | .LESS_THAN => .ok (some info)
    | .error e =>
      match e with
      | .ReleaseChannelMismatchError =>
        -- lines 203-208: the except clause catches only ReleaseChannelMismatchError
        if strict_channel then .error .ReleaseChannelMismatchError else .ok none
      | _ => .error e
  match step1 with
  | .error e => ⟨.error e, false⟩
  | .ok update_info =>
    -- line 211: get_installed_build_info(config)
    match DiscordUpdateLib.get_installed_build_info installed with
    | .error e => ⟨.error e, false⟩
    | .ok bi =>
      -- line 213: format_version(update_info[1]) is evaluated first;
      -- update_info is None on the swallowed-mismatch path, and None is not
      -- subscriptable
      match update_info with
      | none => ⟨.error (.TypeError "NoneType object is not subscriptable"), false⟩
      | some info =>
        -- line 213 continued: build_info["releaseChannel"]
        match dictGet bi "releaseChannel" with
        | none => ⟨.error (.KeyError "releaseChannel"), false⟩
        | some _ =>
          -- lines 217-220: stop_discord with DiscordNotRunningError caught — a no-op here
          -- line 221: download_and_install_discord(..., force defaults to False)
          match install_discord installed (tar release_channel) false strict_channel io_err with
          | .raised e _ => ⟨.error e, true⟩
          | .installed _ =>
            -- line 222: create_desktop_entry (out of core scope)
            -- line 223: return update_info[2]
            ⟨.ok info.2.2, true⟩

/-- Outcome of `update_and_run_discord`: the surfaced result and whether the
run step (`run_discord`, discord_launcher_lib.py:408) was reached. -/
structure RunOutcome where
  result : Except PyErr Unit
  run_reached : Bool

/-- `update_and_run_discord` (discord_launcher_lib.py:399-408): call
`update_discord`, then `run_discord`.  There is no try/except around the
update call, so every exception it raises — `NoUpdateAvailableError`
included — propagates and the run step is never reached.  `run_discord`'s
own behavior (DBus, process spawning) is out of these claims' scope and is
modelled as completing. -/
def update_and_run_discord (release_channel : String) (installed : FileNode)
    (latest : String → Version) (tar : String → List TarMember)
    (io_err : Option PyErr) (strict_channel : Bool) : RunOutcome :=
  match (update_discord release_channel installed latest tar io_err strict_channel).result with
  | .error e => ⟨.error e, false⟩
  | .ok _ => ⟨.ok (), true⟩

/-- The `while True` polling loop of `stop_discord`
(discord_launcher_lib.py:299-304), started at poll index `k`:
`os.kill(pid, 0)` succeeds while the PID is alive (then sleep and retry) and
raises once it is gone, which breaks the loop.  `alive j` tells whether the
PID is alive at the `j`-th probe; `fuel` is the number of probes observed.
The result is `true` when the loop has exited within `fuel` probes and
`false` when it is still running after all of them — the source loop itself
has no bound. -/
def stop_poll (alive : Nat → Bool) : Nat → Nat → Bool
  | _, 0 => false
  | k, fuel + 1 => if alive k then stop_poll alive (k + 1) fuel else true

/-- `stop_discord` (discord_launcher_lib.py:276-312) with `blocking=True`.
`pid_query` is the result of `proxy.PID(...)`: `none` models the DBusError
case (line 306), which is re-raised as `DiscordNotRunningError`.  When the
PID query succeeds, `proxy.Stop` is sent and the polling loop runs; the
returned `Option` is `some` the outcome once the function has returned
within `fuel` probes, `none` while it is still blocked in the loop. -/
def stop_discord (pid_query : Option Nat) (alive : Nat → Bool)
    (blocking : Bool) (fuel : Nat) : Option (Except PyErr Unit) :=
  match pid_query with
  | none => some (.error .DiscordNotRunningError)
  | some _pid =>
    if blocking then
      if stop_poll alive 0 fuel then some (.ok ()) else none
    else
      some (.ok ())

/-- `stop_discord` with `blocking=True` never returns as long as the target
PID stays alive, whatever finite number of probes one waits through. -/
def stop_discord_blocks_forever (pid_query : Option Nat) (alive : Nat → Bool) : Prop :=
  ∀ fuel : Nat, stop_discord pid_query alive true fuel = none

end DiscordLauncherLib

theorem digitChar_isDigit {d : Nat} (h : d < 10) : (digitChar d).isDigit = true := by
  interval_cases d <;> decide

theorem digitVal_digitChar {d : Nat} (h : d < 10) : digitVal (digitChar d) = d := by
  interval_cases d <;> decide

theorem pyStrCharsGo_congr :
    ∀ f1 f2 n, n < f1 → n < f2 → pyStrCharsGo f1 n = pyStrCharsGo f2 n := by
  intro f1
  induction f1 with
  | zero => intro f2 n h _; omega
  | succ f1 ih =>
    intro f2 n h1 h2
    cases f2 with
    | zero => omega
    | succ f2 =>
      simp only [pyStrCharsGo]
      by_cases h : n < 10
      · simp [h]
      · simp only [h, if_false]
        rw [ih f2 (n / 10) (by omega) (by omega)]

theorem pyStrChars_eq (n : Nat) :
    pyStrChars n
      = if n < 10 then [digitChar n] else pyStrChars (n / 10) ++ [digitChar (n % 10)] := by
  unfold pyStrChars
  conv_lhs => simp only [pyStrCharsGo]
  by_cases h : n < 10
  · simp [h]
  · simp only [h, if_false]
    rw [pyStrCharsGo_congr n (n / 10 + 1) (n / 10) (by omega) (by omega)]

theorem pyStrChars_ne_nil (n : Nat) : pyStrChars n ≠ [] := by
  rw [pyStrChars_eq]
  split <;> simp

theorem pyStrChars_all_digits (n : Nat) : ∀ c ∈ pyStrChars n, c.isDigit = true := by
  induction n using Nat.strong_induction_on with
  | _ n ih =>
    rw [pyStrChars_eq]
    by_cases h : n < 10
    · simp only [h, if_true]
      intro c hc
      simp only [List.mem_singleton] at hc
      subst hc
      exact digitChar_isDigit h
    · simp only [h, if_false]
      intro c hc
      rcases List.mem_append.mp hc with hc | hc
      · exact ih (n / 10) (by omega) c hc
      · simp only [List.mem_singleton] at hc
        subst hc
        exact digitChar_isDigit (by omega)

theorem foldl_pyStrChars (n : Nat) :
    ∀ a : Nat, (pyStrChars n).foldl (fun m c => 10 * m + digitVal c) a
      = a * 10 ^ (pyStrChars n).length + n := by
  induction n using Nat.strong_induction_on with
  | _ n ih =>
    intro a
    rw [pyStrChars_eq]
    by_cases h : n < 10
    · simp only [h, if_true, List.foldl_cons, List.foldl_nil, List.length_cons,
        List.length_nil]
      rw [digitVal_digitChar h, pow_one]
      ring
    · simp only [h, if_false, List.foldl_append, List.length_append,
        List.foldl_cons, List.foldl_nil, List.length_cons, List.length_nil]
      rw [ih (n / 10) (by omega), digitVal_digitChar (show n % 10 < 10 by omega)]
      have hdm : 10 * (n / 10) + n % 10 = n := Nat.div_add_mod n 10
      have hexp : 10 * (a * 10 ^ (pyStrChars (n / 10)).length + n / 10) + n % 10
          = a * (10 ^ (pyStrChars (n / 10)).length * 10) + (10 * (n / 10) + n % 10) := by
        ring
      rw [hexp, hdm, pow_succ]

theorem pyIntChars_pyStrChars (n : Nat) : pyIntChars (pyStrChars n) = n := by
  unfold pyIntChars
  rw [foldl_pyStrChars]
  simp

theorem takeWhile_append_stop {p : Char → Bool} :
    ∀ xs : List Char, (∀ c ∈ xs, p c = true) → ∀ (y : Char) (ys : List Char), p y = false →
      (xs ++ y :: ys).takeWhile p = xs ∧ (xs ++ y :: ys).dropWhile p = y :: ys := by
  intro xs
  induction xs with
  | nil =>
    intro _ y ys hy
    simp [List.takeWhile_cons, List.dropWhile_cons, hy]
  | cons x xs ih =>
    intro hall y ys hy
    have hx : p x = true := hall x (List.mem_cons_self x xs)
    have hrest := ih (fun c hc => hall c (List.mem_cons_of_mem x hc)) y ys hy
    simp [List.takeWhile_cons, List.dropWhile_cons, hx, hrest.1, hrest.2]

theorem takeWhile_all {p : Char → Bool} :
    ∀ xs : List Char, (∀ c ∈ xs, p c = true) → xs.takeWhile p = xs := by
  intro xs
  induction xs with
  | nil => simp
  | cons x xs ih =>
    intro hall
    have hx : p x = true := hall x (List.mem_cons_self x xs)
    simp [List.takeWhile_cons, hx, ih (fun c hc => hall c (List.mem_cons_of_mem x hc))]

namespace DiscordUpdateLib

theorem VERSION_REGEX_match_version (a b c : Nat) :
    VERSION_REGEX_match (pyStr a ++ "." ++ pyStr b ++ "." ++ pyStr c)
      = some (pyStrChars a, pyStrChars b, pyStrChars c) := by
  have hdata : (pyStr a ++ "." ++ pyStr b ++ "." ++ pyStr c).data
      = pyStrChars a ++ '.' :: (pyStrChars b ++ '.' :: pyStrChars c) := by
    simp [pyStr, String.data_append]
  have hdot : ('.' : Char).isDigit = false := by decide
  have h1 := takeWhile_append_stop (pyStrChars a) (pyStrChars_all_digits a) '.'
    (pyStrChars b ++ '.' :: pyStrChars c) hdot
  have h2 := takeWhile_append_stop (pyStrChars b) (pyStrChars_all_digits b) '.'
    (pyStrChars c) hdot
  have h3 := takeWhile_all (pyStrChars c) (pyStrChars_all_digits c)
  unfold VERSION_REGEX_match
  rw [hdata]
  simp [h1.1, h1.2, h2.1, h2.2, h3, pyStrChars_ne_nil]

theorem parse_version_of_format (a b c : Nat) :
    parse_version (pyStr a ++ "." ++ pyStr b ++ "." ++ pyStr c) = Except.ok (a, b, c) := by
  unfold parse_version
  rw [VERSION_REGEX_match_version]
  simp [pyIntChars_pyStrChars]

/-- C9: for all non-negative integers `a`, `b`, `c`, parsing the version
string `"a.b.c"` yields the triple `(a, b, c)` and formatting that triple
yields the string back, so `format_version (parse_version "a.b.c")`
round-trips to `"a.b.c"`. -/
theorem c9_parse_format_roundtrip (a b c : Nat) :
    parse_version (pyStr a ++ "." ++ pyStr b ++ "." ++ pyStr c) = Except.ok (a, b, c) ∧
    format_version (a, b, c) = pyStr a ++ "." ++ pyStr b ++ "." ++ pyStr c :=
  ⟨parse_version_of_format a b c, rfl⟩

end DiscordUpdateLib

namespace DiscordUpdateLib

mutual
theorem remove_items_eq_nil : ∀ items : List (String × FSNode), remove_items items = []
  | [] => by simp [remove_items]
  | (nm, c) :: rest => by
    cases c with
    | file content => simp [remove_items, remove_items_eq_nil rest]
    | dir cs => simp [remove_items, remove_directory_dir_eq_none cs, remove_items_eq_nil rest]
theorem remove_directory_dir_eq_none : ∀ cs : List (String × FSNode), remove_directory (.dir cs) = none
  | cs => by simp [remove_directory, remove_items_eq_nil cs]
end

/-- C10: `remove_directory` on a path that does not exist or is not a
directory returns without raising and leaves the node exactly as it was;
deletion can only happen when the path is a directory. -/
theorem c10_remove_directory_skips_non_dirs (n : Option FSNode)
    (h : is_dir_at n = false) : remove_directory_at n = n := by
  match n with
  | none => rfl
  | some (.file content) => simp [remove_directory_at, remove_directory]
  | some (.dir items) => simp [is_dir_at] at h

/-- Witness for C10 at a concrete regular-file node. -/
theorem c10_witness :
    is_dir_at (some (.file "binary-bytes")) = false ∧
    remove_directory_at (some (.file "binary-bytes")) = some (.file "binary-bytes") :=
  ⟨rfl, c10_remove_directory_skips_non_dirs (some (.file "binary-bytes")) rfl⟩

end DiscordUpdateLib

namespace DiscordUpdateLib

theorem compare_versions_self (v : Version) : compare_versions v v = .EQUAL_TO := by
  simp [compare_versions]

theorem install_checks_fails (tbi : Option PyDict) (installed : FileNode)
    (force strict_channel : Bool)
    (hfail :
      (tbi = none ∧ force = false)
      ∨ (∃ bj inst ca ci,
          tbi = some bj ∧ installed = .file inst
          ∧ dictGet bj "releaseChannel" = some ca
          ∧ dictGet inst "releaseChannel" = some ci
          ∧ ca ≠ ci ∧ strict_channel = true)
      ∨ (∃ bj inst ch tarVs instVs tarV instV,
          tbi = some bj ∧ installed = .file inst
          ∧ dictGet bj "releaseChannel" = some ch
          ∧ dictGet inst "releaseChannel" = some ch
          ∧ dictGet bj "version" = some tarVs
          ∧ dictGet inst "version" = some instVs
          ∧ parse_version tarVs = .ok tarV
          ∧ parse_version instVs = .ok instV
          ∧ (compare_versions tarV instV = .LESS_THAN
              ∨ compare_versions tarV instV = .EQUAL_TO)
          ∧ force = false)
      ∨ (installed = .missing ∧ (strict_channel = true ∨ force = false))) :
    ∃ e, install_checks tbi installed force strict_channel = .error e := by
  rcases hfail with ⟨htbi, hforce⟩
    | ⟨bj, inst, ca, ci, htbi, hinst, hca, hci, hne, hstrict⟩
    | ⟨bj, inst, ch, tarVs, instVs, tarV, instV, htbi, hinst, hbc, hic, hbv, hiv,
        hptar, hpinst, hcmp, hforce⟩
    | ⟨hinst, hcond⟩
  · -- archive metadata missing and force is false
    subst htbi hforce
    cases installed with
    | missing => exact ⟨.BuildInfoNotFoundError, by simp [install_checks]⟩
    | directory => exact ⟨.IsADirectoryError, by simp [install_checks]⟩
    | file inst =>
      cases hv : dictGet inst "version" with
      | none => exact ⟨.KeyError "version", by simp [install_checks, hv]⟩
      | some vs =>
        cases hrc : dictGet inst "releaseChannel" with
        | none => exact ⟨.KeyError "releaseChannel", by simp [install_checks, hv, hrc]⟩
        | some rc =>
          exact ⟨.KeyError "releaseChannel", by simp [install_checks, hv, hrc, dictGet]⟩
  · -- channel mismatch with strict_channel
    subst htbi hinst hstrict
    cases hbv : dictGet bj "version" with
    | none => exact ⟨.KeyError "version", by simp [install_checks, hbv]⟩
    | some tv =>
      cases hv : dictGet inst "version" with
      | none => exact ⟨.KeyError "version", by simp [install_checks, hbv, hca, hv]⟩
      | some iv =>
        exact ⟨.ReleaseChannelMismatchError,
          by simp [install_checks, hbv, hca, hv, hci, hne]⟩
  · -- version conflict (archive older or same) without force
    subst htbi hinst hforce
    rcases hcmp with hlt | heq
    · exact ⟨.InstalledVersionNewerError,
        by simp [install_checks, hbv, hbc, hiv, hic, hptar, hpinst, hlt]⟩
    · exact ⟨.InstalledVersionSameError,
        by simp [install_checks, hbv, hbc, hiv, hic, hptar, hpinst, heq]⟩
  · -- installed build info missing while strict_channel or not force
    subst hinst
    cases tbi with
    | none =>
      rcases hcond with h | h
      · exact ⟨.BuildInfoNotFoundError, by simp [install_checks, h]⟩
      · exact ⟨.BuildInfoNotFoundError, by simp [install_checks, h]⟩
    | some bj =>
      cases hbv : dictGet bj "version" with
      | none => exact ⟨.KeyError "version", by simp [install_checks, hbv]⟩
      | some tv =>
        cases hbc : dictGet bj "releaseChannel" with
        | none => exact ⟨.KeyError "releaseChannel", by simp [install_checks, hbv, hbc]⟩
        | some rc =>
          rcases hcond with h | h
          · exact ⟨.BuildInfoNotFoundError, by simp [install_checks, hbv, hbc, h]⟩
          · exact ⟨.BuildInfoNotFoundError, by simp [install_checks, hbv, hbc, h]⟩

/-- C1: whenever a validation check of `install_discord` fails without being
forced past — archive metadata missing without `force`, channel mismatch with
`strict_channel`, version conflict (archive older or equal) without `force`,
or installed build info missing while `strict_channel` or not `force` — the
function raises before the destructive phase: the result is `raised` with the
destructive-phase flag still `false`, so the existing destination directory
is never deleted or modified. -/
theorem c1_install_raises_before_destruction
    (installed : FileNode) (tar : List TarMember) (force strict_channel : Bool)
    (io_err : Option PyErr)
    (hfail :
      ((scan_members tar ⟨none, []⟩).build_info = none ∧ force = false)
      ∨ (∃ bj inst ca ci,
          (scan_members tar ⟨none, []⟩).build_info = some bj ∧ installed = .file inst
          ∧ dictGet bj "releaseChannel" = some ca
          ∧ dictGet inst "releaseChannel" = some ci
          ∧ ca ≠ ci ∧ strict_channel = true)
      ∨ (∃ bj inst ch tarVs instVs tarV instV,
          (scan_members tar ⟨none, []⟩).build_info = some bj ∧ installed = .file inst
          ∧ dictGet bj "releaseChannel" = some ch
          ∧ dictGet inst "releaseChannel" = some ch
          ∧ dictGet bj "version" = some tarVs
          ∧ dictGet inst "version" = some instVs
          ∧ parse_version tarVs = .ok tarV
          ∧ parse_version instVs = .ok instV
          ∧ (compare_versions tarV instV = .LESS_THAN
              ∨ compare_versions tarV instV = .EQUAL_TO)
          ∧ force = false)
      ∨ (installed = .missing ∧ (strict_channel = true ∨ force = false))) :
    ∃ e, install_discord installed tar force strict_channel io_err = .raised e false := by
  obtain ⟨e, he⟩ := install_checks_fails (scan_members tar ⟨none, []⟩).build_info
    installed force strict_channel hfail
  refine ⟨e, ?_⟩
  unfold install_discord
  simp only [he]

/-- Witness for C1: empty tar, no installed build info, `force=False`,
`strict_channel=True`. -/
theorem c1_witness :
    ((FileNode.missing = FileNode.missing) ∧ ((true : Bool) = true ∨ (false : Bool) = false)) ∧
    ∃ e, install_discord .missing [] false true none = .raised e false :=
  ⟨⟨rfl, Or.inl rfl⟩,
    c1_install_raises_before_destruction .missing [] false true none
      (Or.inr (Or.inr (Or.inr ⟨rfl, Or.inl rfl⟩)))⟩

/-- C2 (code behavior): an archive with no `build_info.json` under any channel
root, `force=False`, `strict_channel=True`, and a well-formed existing
install.  The claim (and discord_update_lib.py:162-164's clear intent) is a
`BuildInfoNotFoundInTarError`; the code constructs that error but never
raises it, falls through with an empty metadata dict, and instead dies with
`KeyError("releaseChannel")` at line 175. -/
theorem c2_code_behavior :
    install_discord (.file [("version", "1.2.3"), ("releaseChannel", "stable")])
        [⟨"Discord/app.so", []⟩] false true none
      = .raised (.KeyError "releaseChannel") false ∧
    PyErr.KeyError "releaseChannel" ≠ PyErr.BuildInfoNotFoundInTarError :=
  ⟨by decide, by decide⟩

end DiscordUpdateLib

namespace DiscordLauncherLib

open DiscordUpdateLib

/-- C3 (code behavior): configured channel `"canary"`, installed channel
`"stable"`.  The function does raise before any network call
(`network_called = false`), but the exception is the `TypeError` produced by
calling the no-argument `ReleaseChannelMismatchError.__init__` with the
channel tuple — not a `ReleaseChannelMismatchError` carrying both values. -/
theorem c3_code_behavior :
    check_for_updates "canary"
        (.file [("version", "1.2.3"), ("releaseChannel", "stable")]) (fun _ => (9, 9, 9))
      = ⟨.error (.TypeError
          "ReleaseChannelMismatchError.__init__ takes 1 positional argument but 2 were given"),
         false⟩ := rfl

/-- C4 (code behavior): configured channel `"canary"`, installed channel
`"stable"`, `strict_channel=False`.  The claim says the mismatch is swallowed
and the update proceeds to return the new version; instead the `TypeError`
from the misconstructed `ReleaseChannelMismatchError` propagates (the
`except ReleaseChannelMismatchError` clause cannot catch it) and the
download step is never reached. -/
theorem c4_code_behavior :
    update_discord "canary"
        (.file [("version", "1.2.3"), ("releaseChannel", "stable")])
        (fun _ => (9, 9, 9)) (fun _ => []) none false
      = ⟨.error (.TypeError
          "ReleaseChannelMismatchError.__init__ takes 1 positional argument but 2 were given"),
         false⟩ := rfl

/-- C5 (code behavior): installed version equal to the latest, so the update
step raises `NoUpdateAvailableError`.  `update_and_run_discord` has no
handler around `update_discord`, so the error is fatal and the run step is
never reached (`run_reached = false`), although the claim (and the
function's own docstring) say the launcher should still run Discord. -/
theorem c5_code_behavior :
    update_and_run_discord "stable"
        (.file [("version", "1.2.3"), ("releaseChannel", "stable")])
        (fun _ => (1, 2, 3)) (fun _ => []) none true
      = ⟨.error (.NoUpdateAvailableError "Latest available version is 1.2.3, which is installed"),
         false⟩ := rfl

/-- C6: when the configured channel matches the installed build info's
channel and the installed version equals the latest published version for
that channel, `update_discord` raises `NoUpdateAvailableError` whose note
carries the matched version, and the download/extraction step is never
reached. -/
theorem c6_no_update_available
    (release_channel : String) (bi : PyDict) (latest : String → Version)
    (tar : String → List TarMember) (io_err : Option PyErr) (strict_channel : Bool)
    (v : Version) (vs : String)
    (hrc : dictGet bi "releaseChannel" = some release_channel)
    (hvs : dictGet bi "version" = some vs)
    (hp : parse_version vs = .ok v)
    (hlatest : latest (if release_channel = "canary" ∨ release_channel = "ptb"
        then release_channel else "stable") = v) :
    update_discord release_channel (.file bi) latest tar io_err strict_channel
      = ⟨.error (.NoUpdateAvailableError
          ("Latest available version is " ++ format_version v ++ ", which is installed")),
         false⟩ := by
  unfold update_discord check_for_updates DiscordUpdateLib.check_for_updates
  simp [DiscordUpdateLib.get_installed_build_info, hrc, hvs, hp, hlatest,
    compare_versions_self]

/-- Witness for C6 at a concrete configuration. -/
theorem c6_witness :
    update_discord "stable" (.file [("version", "1.2.3"), ("releaseChannel", "stable")])
        (fun _ => (1, 2, 3)) (fun _ => []) none true
      = ⟨.error (.NoUpdateAvailableError
          ("Latest available version is " ++ format_version (1, 2, 3) ++ ", which is installed")),
         false⟩ :=
  c6_no_update_available "stable" [("version", "1.2.3"), ("releaseChannel", "stable")]
    (fun _ => (1, 2, 3)) (fun _ => []) none true (1, 2, 3) "1.2.3" rfl rfl rfl rfl

/-- C7: when the configured channel matches the installed one and the
installed version is strictly greater than the latest published version,
`update_discord` raises a `ValueError` — a hard error distinct from
`NoUpdateAvailableError` — and the download/extraction step is never
reached. -/
theorem c7_installed_version_newer
    (release_channel : String) (bi : PyDict) (latest : String → Version)
    (tar : String → List TarMember) (io_err : Option PyErr) (strict_channel : Bool)
    (v l : Version) (vs : String)
    (hrc : dictGet bi "releaseChannel" = some release_channel)
    (hvs : dictGet bi "version" = some vs)
    (hp : parse_version vs = .ok v)
    (hlatest : latest (if release_channel = "canary" ∨ release_channel = "ptb"
        then release_channel else "stable") = l)
    (hcmp : compare_versions v l = .GREATER_THAN) :
    update_discord release_channel (.file bi) latest tar io_err strict_channel
      = ⟨.error (.ValueError
          ("Installed version is " ++ format_version v
            ++ ", latest available is " ++ format_version l)),
         false⟩ ∧
    ∀ s, PyErr.ValueError
          ("Installed version is " ++ format_version v
            ++ ", latest available is " ++ format_version l)
        ≠ PyErr.NoUpdateAvailableError s := by
  constructor
  · unfold update_discord check_for_updates DiscordUpdateLib.check_for_updates
    simp [DiscordUpdateLib.get_installed_build_info, hrc, hvs, hp, hlatest, hcmp]
  · intro s
    simp

/-- Witness for C7 at a concrete configuration. -/
theorem c7_witness :
    update_discord "stable" (.file [("version", "2.0.0"), ("releaseChannel", "stable")])
        (fun _ => (1, 9, 9)) (fun _ => []) none true
      = ⟨.error (.ValueError
          ("Installed version is " ++ format_version (2, 0, 0)
            ++ ", latest available is " ++ format_version (1, 9, 9))),
         false⟩ ∧
    ∀ s, PyErr.ValueError
          ("Installed version is " ++ format_version (2, 0, 0)
            ++ ", latest available is " ++ format_version (1, 9, 9))
        ≠ PyErr.NoUpdateAvailableError s :=
  c7_installed_version_newer "stable" [("version", "2.0.0"), ("releaseChannel", "stable")]
    (fun _ => (1, 9, 9)) (fun _ => []) none true (2, 0, 0) (1, 9, 9) "2.0.0"
    rfl rfl rfl rfl (by decide)

theorem stop_poll_always_alive : ∀ fuel k, stop_poll (fun _ => true) k fuel = false := by
  intro fuel
  induction fuel with
  | zero => intro k; rfl
  | succ f ih => intro k; simp [stop_poll, ih]

/-- C8 counterexample: a PID that stays alive forever.  The claim says the
blocking wait "gives up after a finite implementation-defined bound" and
"never blocks forever"; the source loop has no bound, so with an
ever-alive PID the call has not returned after any finite number of
probes. -/
theorem c8_counterexample : stop_discord_blocks_forever (some 1) (fun _ => true) := by
  intro fuel
  simp [stop_discord, stop_poll_always_alive]

theorem stop_poll_true_of_dead (alive : Nat → Bool) :
    ∀ (j k : Nat), alive (k + j) = false → stop_poll alive k (j + 1) = true := by
  intro j
  induction j with
  | zero =>
    intro k h
    rw [Nat.add_zero] at h
    have hstep : stop_poll alive k 1
        = if alive k then stop_poll alive (k + 1) 0 else true := rfl
    rw [hstep, if_neg (by simp [h])]
  | succ j ih =>
    intro k h
    have hstep : stop_poll alive k (j + 1 + 1)
        = if alive k then stop_poll alive (k + 1) (j + 1) else true := rfl
    rw [hstep]
    by_cases ha : alive k = true
    · rw [if_pos ha]
      exact ih (k + 1) (by rw [show k + 1 + j = k + (j + 1) by omega]; exact h)
    · rw [if_neg ha]

/-- C8 (amended): with a successful PID query and `blocking=True`,
`stop_discord` returns successfully once the target PID stops being alive —
within one probe past the probe at which the PID is first dead.  There is no
give-up bound: if the PID never dies the call polls indefinitely (see the
counterexample). -/
theorem c8_stop_returns_after_death (pid : Nat) (alive : Nat → Bool) (k : Nat)
    (h : alive k = false) :
    stop_discord (some pid) alive true (k + 1) = some (.ok ()) := by
  have hpoll := stop_poll_true_of_dead alive k 0 (by simpa using h)
  simp [stop_discord, hpoll]

/-- Witness for C8 (amended): a PID that dies after its first probe. -/
theorem c8_witness :
    (fun j => decide (j < 1)) 1 = false ∧
    stop_discord (some 7) (fun j => decide (j < 1)) true 2 = some (.ok ()) :=
  ⟨by decide, c8_stop_returns_after_death 7 (fun j => decide (j < 1)) 1 (by decide)⟩

end DiscordLauncherLib
